import Mathlib

/-!
Verification of the payment core of the chat-pay backend.

The definitions below are a shallow embedding of the code in
`src/services/payment.service.js`, `src/controllers/payment.controller.js`
and the Mongoose `Transaction` model (`src/models/Transaction.js`) and the
`balance` field of `src/models/User.js`.  Database documents become records
in an explicit state, Mongo operations (`findById`, `save`, `create`,
`findByIdAndUpdate` with an increment) become pure functions on that state,
and outbound gateway calls become boolean parameters describing the
response the gateway returned, plus a counter of outbound calls.
-/

/-- Transaction statuses, from the `status` enum of the Mongoose schema:
pending, processing, completed, failed, cancelled, refunded. -/
inductive TxStatus where
  | pending
  | processing
  | completed
  | failed
  | cancelled
  | refunded
deriving DecidableEq, Repr

/-- Transaction types used by the service layer.  Note that the Mongoose
schema enumerates only send, request, receive, refund and fee; membership
in the schema enum is checked separately by `typeEnumOk`. -/
inductive TxType where
  | send
  | request
  | receive
  | refund
  | fee
  | withdrawal
deriving DecidableEq, Repr

/-- Membership in the `type` enum of the Transaction schema:
send, request, receive, refund, fee.  The schema does not list
withdrawal, so documents with that type fail validation. -/
def typeEnumOk : TxType → Bool
  | TxType.send => true
  | TxType.request => true
  | TxType.receive => true
  | TxType.refund => true
  | TxType.fee => true
  | TxType.withdrawal => false

/-- Membership in the `paymentMethod` enum of the Transaction schema:
crypto, bank, card, wallet. -/
def payMethodEnumOk (m : String) : Bool :=
  [("crypto" : String), ("bank" : String), ("card" : String), ("wallet" : String)].contains m

/-- Membership in the `currency` enum of the Transaction schema:
SUI, USDC, NGN, USD. -/
def currencyEnumOk (c : String) : Bool :=
  [("SUI" : String), ("USDC" : String), ("NGN" : String), ("USD" : String)].contains c

/-- A transaction document.  Fields are those of the Mongoose schema that
the payment service reads or writes; amounts are integers (NGN units).
Mongo object ids are modelled as naturals; the provider reference of a
charge or transfer is the transaction id (the code passes
`transaction._id.toString()` as the Paystack reference). -/
structure Transaction where
  id : Nat
  fromUser : Nat
  toUser : Option Nat := none
  amount : Int
  currency : String := "SUI"
  paymentMethod : String := "crypto"
  type : TxType
  status : TxStatus := TxStatus.pending
  description : String := ""
  originalTransaction : Option Nat := none
  externalReference : Option String := none
  suiTxHash : Option Nat := none
  processingFee : Option Int := none
deriving DecidableEq, Repr

/-- The persistent state: the transaction collection, the users with their
`balance` fields, the next fresh object id, and a counter of outbound
gateway (Paystack) HTTP calls made so far. -/
structure St where
  txs : List Transaction := []
  balances : List (Nat × Int) := []
  nextId : Nat := 0
  gwCalls : Nat := 0
deriving DecidableEq, Repr

/-- Balance of a user, `User.findById` restricted to the balance field;
none when no such user exists. -/
def lookupBal (l : List (Nat × Int)) (u : Nat) : Option Int :=
  (l.find? (fun p => p.1 == u)).map (fun p => p.2)

/-- `User.findByIdAndUpdate(u, \x7b $inc: \x7b balance: d \x7d \x7d)`:
increments the balance of user `u`, a no-op when the user is absent. -/
def incBal (l : List (Nat × Int)) (u : Nat) (d : Int) : List (Nat × Int) :=
  l.map (fun p => if p.1 == u then (p.1, p.2 + d) else p)

def findBalance (st : St) (u : Nat) : Option Int :=
  lookupBal st.balances u

/-- Balance read with the schema default 0 for convenience of statements. -/
def getBalance (st : St) (u : Nat) : Int :=
  (findBalance st u).getD 0

def incBalance (st : St) (u : Nat) (d : Int) : St :=
  { st with balances := incBal st.balances u d }

/-- `Transaction.findById`. -/
def findTx (st : St) (i : Nat) : Option Transaction :=
  st.txs.find? (fun t => t.id == i)

/-- `document.save()` after mutating the document with id `i` by `f`
(also `Transaction.updateOne` on that id). -/
def updateTx (st : St) (i : Nat) (f : Transaction → Transaction) : St :=
  { st with txs := st.txs.map (fun t => if t.id == i then f t else t) }

/-- Mongoose document validation run by `save`/`create`: the enum checks
of the schema on `type`, `paymentMethod` and `currency`, and `min: 0` on
`amount`. -/
def validTx (t : Transaction) : Bool :=
  typeEnumOk t.type && payMethodEnumOk t.paymentMethod &&
    currencyEnumOk t.currency && decide (0 ≤ t.amount)

/-- `Transaction.create`: validates the document and appends it;
a validation failure throws and persists nothing. -/
def createTx (st : St) (t : Transaction) : Except String St :=
  if validTx t then
    Except.ok { st with txs := st.txs ++ [t], nextId := st.nextId + 1 }
  else
    Except.error ("ValidationError")

-- Store lemmas -----------------------------------------------------------

theorem findTx_incBalance (st : St) (u : Nat) (d : Int) (r : Nat) :
    findTx (incBalance st u d) r = findTx st r := rfl

theorem findBalance_updateTx (st : St) (i : Nat) (f : Transaction → Transaction) (u : Nat) :
    findBalance (updateTx st i f) u = findBalance st u := rfl

theorem incBal_pred_comp (u v : Nat) (d : Int) :
    ((fun p : Nat × Int => p.1 == v) ∘ fun p : Nat × Int =>
        if p.1 == u then (p.1, p.2 + d) else p)
      = (fun p : Nat × Int => p.1 == v) := by
  funext q
  by_cases h : q.1 = u
  · simp [h]
  · simp [h]

theorem lookup_incBal_self (l : List (Nat × Int)) (u : Nat) (d : Int) :
    lookupBal (incBal l u d) u = (lookupBal l u).map (fun b => b + d) := by
  unfold lookupBal incBal
  rw [List.find?_map, incBal_pred_comp]
  cases hfind : List.find? (fun p => p.1 == u) l with
  | none => rfl
  | some q =>
    have hq : q.1 = u := by
      have h0 := List.find?_some hfind
      simpa using h0
    simp [hq]

theorem lookup_incBal_ne (l : List (Nat × Int)) (u v : Nat) (d : Int) (h : v ≠ u) :
    lookupBal (incBal l u d) v = lookupBal l v := by
  unfold lookupBal incBal
  rw [List.find?_map, incBal_pred_comp]
  cases hfind : List.find? (fun p => p.1 == v) l with
  | none => rfl
  | some q =>
    have hqv : q.1 = v := by
      have h0 := List.find?_some hfind
      simpa using h0
    have hqu : ¬ q.1 = u := by
      rw [hqv]
      exact h
    simp [hqu]

theorem findBalance_incBalance_self (st : St) (u : Nat) (d : Int) :
    findBalance (incBalance st u d) u = (findBalance st u).map (fun b => b + d) :=
  lookup_incBal_self st.balances u d

theorem findBalance_incBalance_ne (st : St) (u v : Nat) (d : Int) (h : v ≠ u) :
    findBalance (incBalance st u d) v = findBalance st v :=
  lookup_incBal_ne st.balances u v d h

theorem find_map_pres (l : List Transaction) (i r : Nat) (f : Transaction → Transaction)
    (hf : ∀ t, (f t).id = t.id) :
    (l.map (fun t => if t.id == i then f t else t)).find? (fun t => t.id == r)
      = (l.find? (fun t => t.id == r)).map (fun t => if t.id == i then f t else t) := by
  rw [List.find?_map]
  have hcomp : ((fun t => t.id == r) ∘ fun t : Transaction =>
      if t.id == i then f t else t) = (fun t : Transaction => t.id == r) := by
    funext t
    by_cases h : t.id = i
    · simp [h, hf]
    · simp [h]
  rw [hcomp]

theorem findTx_updateTx (st : St) (i r : Nat) (f : Transaction → Transaction)
    (hf : ∀ t, (f t).id = t.id) :
    findTx (updateTx st i f) r
      = (findTx st r).map (fun t => if t.id == i then f t else t) :=
  find_map_pres st.txs i r f hf

-- Service operations ------------------------------------------------------

/-- A JSON-style response object returned by the service functions:
`\x7b success, message, transactionId? \x7d`. -/
structure ApiResp where
  success : Bool
  message : String
  txId : Option Nat := none
deriving DecidableEq, Repr

/-- Outcome of an async service call: a returned response object, or a
thrown error (the services wrap and rethrow errors with a message). -/
inductive Outcome where
  | resp (r : ApiResp)
  | thrown (msg : String)
deriving DecidableEq, Repr

/-- The Paystack charge-verification response consumed by `verifyPayment`:
`ok` is `response.data.status`, `paystatus` is `paymentData.status`,
`reference` is `paymentData.reference` (the transaction id that was passed
as the Paystack reference at initialization), `amount` is
`paymentData.amount` in kobo. -/
structure GatewayVerifyResp where
  ok : Bool
  paystatus : String
  reference : Nat
  amount : Int
  gatewayResponse : String := ""
deriving DecidableEq, Repr

/-- The document mutation of the success branch of `verifyPayment`
(payment.service.js lines 134-142): set status completed, record the
provider reference and the external reference, set the processing fee.
The floating-point fee `(amount / 100) * 0.015` is abstracted to the raw
kobo amount; no claim depends on its value. -/
def completeTx (gw : GatewayVerifyResp) (reference : Nat) (t : Transaction) : Transaction :=
  { t with
      status := TxStatus.completed
      suiTxHash := some gw.reference
      externalReference := some (toString reference)
      processingFee := some gw.amount }

/-- `PaymentService.verifyPayment(reference)` (payment.service.js 99-177).
The Paystack GET call is modelled by the response `gw` it returned.  On a
successful payment: look the transaction up by the provider reference; if
it is already completed return a success no-op; otherwise mark it
completed and apply the balance effects (unconditional `$inc` debit of the
sender, `$inc` credit of the receiver).  On a failed payment: mark the
transaction failed.  Errors thrown are wrapped with a prefix by the catch
block. -/
def verifyPayment (gw : GatewayVerifyResp) (reference : Nat) (st : St) : Outcome × St :=
  if gw.ok = false then
    (Outcome.thrown ("Payment verification failed: Payment verification failed"), st)
  else if gw.paystatus = "success" then
    match findTx st gw.reference with
    | none => (Outcome.thrown ("Payment verification failed: Transaction not found"), st)
    | some tx =>
      if tx.status = TxStatus.completed then
        (Outcome.resp { success := true, message := "Payment already completed", txId := some tx.id }, st)
      else
        let stA := updateTx st tx.id (completeTx gw reference)
        let stB := incBalance stA tx.fromUser (-tx.amount)
        let stC :=
          match tx.toUser with
          | some v => incBalance stB v tx.amount
          | none => stB
        (Outcome.resp { success := true, message := "Payment verified successfully", txId := some tx.id }, stC)
  else
    (Outcome.resp { success := false, message := "Payment failed: " ++ gw.gatewayResponse },
     updateTx st gw.reference (fun t => { t with status := TxStatus.failed }))

/-- An inbound webhook event: `kind` is `event.event`, `reference` is
`event.data.reference`, `hasMetadata` records whether `event.data.metadata`
is present (payment.service.js line 203 reads
`event.data.metadata.transactionId`, which throws when it is absent). -/
structure WebhookEvent where
  kind : String
  reference : Nat
  hasMetadata : Bool := true
deriving DecidableEq, Repr

/-- `PaymentService.handleWebhookEvent(event)` (payment.service.js
199-230): a `charge.success` event is funnelled through `verifyPayment`
on the event's reference; any other event is acknowledged without
processing.  `gw` is the response of the verification call made inside. -/
def handleWebhookEvent (gw : GatewayVerifyResp) (ev : WebhookEvent) (st : St) : Outcome × St :=
  if ev.kind = "charge.success" then
    if ev.hasMetadata = false then
      (Outcome.thrown ("TypeError: cannot read transactionId of undefined"), st)
    else
      match verifyPayment gw ev.reference st with
      | (Outcome.thrown m, st1) => (Outcome.thrown m, st1)
      | (Outcome.resp r, st1) =>
        if r.success then
          (Outcome.resp { success := true, message := "Payment processed successfully via webhook" }, st1)
        else
          (Outcome.resp { success := false, message := "Payment verification failed" }, st1)
  else
    (Outcome.resp { success := true, message := "Event processed" }, st)

/-- `PaymentService.cancelTransaction` (payment.service.js 306-332): only
an already-`completed` transaction is refused; any other status is moved
to `cancelled`. -/
def cancelTransaction (txId : Nat) (reason : String) (st : St) : Outcome × St :=
  match findTx st txId with
  | none => (Outcome.thrown ("Transaction not found"), st)
  | some tx =>
    if tx.status = TxStatus.completed then
      (Outcome.thrown ("Cannot cancel completed transaction"), st)
    else
      (Outcome.resp { success := true, message := "Transaction cancelled successfully", txId := some tx.id },
       updateTx st tx.id (fun t =>
         { t with
             status := TxStatus.cancelled
             description := if reason = "" then "Cancelled by user" else reason }))

/-- The transaction record created by `initializePayment`
(payment.service.js 41-51).  The `paystack_${Date.now()}` external
reference string is abstracted to a constant; no claim depends on it. -/
def mkSendTx (id fromU toU : Nat) (amount : Int) (currency description : String) : Transaction :=
  { id := id
    fromUser := fromU
    toUser := some toU
    amount := amount
    currency := currency
    paymentMethod := "bank"
    type := TxType.send
    status := TxStatus.pending
    description := description
    externalReference := some ("paystack_now") }

/-- `PaymentService.initializePayment` (payment.service.js 26-92): look up
both users, validate the minimum amount, create the pending transaction,
then call the Paystack initialize endpoint (`gwOk` is
`response.data.status`). -/
def initializePayment (gwOk : Bool) (userId recipientId : Nat) (amount : Int)
    (currency description : String) (st : St) : Outcome × St :=
  if ((findBalance st userId).isSome && (findBalance st recipientId).isSome) = false then
    (Outcome.thrown ("Payment initialization failed: User not found"), st)
  else if amount < 100 then
    (Outcome.thrown ("Payment initialization failed: Minimum amount is ₦100"), st)
  else
    match createTx st (mkSendTx st.nextId userId recipientId amount currency description) with
    | Except.error e => (Outcome.thrown ("Payment initialization failed: " ++ e), st)
    | Except.ok st1 =>
      let st2 := { st1 with gwCalls := st1.gwCalls + 1 }
      if gwOk = false then
        (Outcome.thrown ("Payment initialization failed: Failed to initialize payment with Paystack"), st2)
      else
        (Outcome.resp { success := true, message := "Payment initialization successful", txId := some st.nextId }, st2)

/-- The transaction record created by `initiateTransfer`
(payment.service.js 426-437).  Note `type: withdrawal` and
`paymentMethod: bank_transfer`, exactly as the service writes them; the
`metadata.recipientCode` field is not a schema path and is dropped by
strict mode. -/
def mkWithdrawalTx (id userId : Nat) (amount : Int) (reason : String) : Transaction :=
  { id := id
    fromUser := userId
    toUser := none
    amount := amount
    currency := "NGN"
    paymentMethod := "bank_transfer"
    type := TxType.withdrawal
    status := TxStatus.pending
    description := if reason = "" then "Withdrawal to bank" else reason }

/-- `PaymentService.initiateTransfer` (payment.service.js 417-479): check
the balance, create the pending withdrawal record, POST the transfer to
Paystack (`gwOk` is `response.data.status`), then debit the sender
immediately (lock-then-refund).  All thrown errors are wrapped with the
`Transfer failed:` prefix by the catch block. -/
def initiateTransfer (gwOk : Bool) (userId : Nat) (amount : Int)
    (recipientCode reason : String) (st : St) : Outcome × St :=
  match findBalance st userId with
  | none => (Outcome.thrown ("Transfer failed: user is null"), st)
  | some bal =>
    if bal < amount then
      (Outcome.thrown ("Transfer failed: Insufficient balance"), st)
    else
      match createTx st (mkWithdrawalTx st.nextId userId amount reason) with
      | Except.error e => (Outcome.thrown ("Transfer failed: " ++ e), st)
      | Except.ok st1 =>
        let st2 := { st1 with gwCalls := st1.gwCalls + 1 }
        if gwOk = false then
          (Outcome.thrown ("Transfer failed: transfer rejected"),
           updateTx st2 st.nextId (fun t => { t with status := TxStatus.failed }))
        else
          (Outcome.resp { success := true, message := "Transfer queued successfully", txId := some st.nextId },
           incBalance st2 userId (-amount))

/-- `PaymentController.withdraw` (payment.controller.js 301-337) with all
required fields present: create the transfer recipient at the gateway
(one outbound Paystack call, its returned `recipientCode` is a parameter),
then call `initiateTransfer`. -/
def withdraw (recipientCode : String) (gwOk : Bool) (userId : Nat) (amount : Int)
    (reason : String) (st : St) : Outcome × St :=
  initiateTransfer gwOk userId amount recipientCode reason
    { st with gwCalls := st.gwCalls + 1 }

/-- `PaymentService.handleTransferWebhook` (payment.service.js 485-503):
look the transaction up by the event reference; `transfer.success` marks
it completed; `transfer.failed` marks it failed and credits the sender by
the transaction amount.  There is no guard on the current status. -/
def handleTransferWebhook (ev : WebhookEvent) (st : St) : St :=
  match findTx st ev.reference with
  | none => st
  | some tx =>
    if ev.kind = "transfer.success" then
      updateTx st tx.id (fun t => { t with status := TxStatus.completed })
    else if ev.kind = "transfer.failed" then
      incBalance (updateTx st tx.id (fun t => { t with status := TxStatus.failed }))
        tx.fromUser tx.amount
    else st

/-- `n` deliveries of the same transfer webhook event. -/
def replayTransferWebhook (ev : WebhookEvent) : Nat → St → St
  | 0, st => st
  | n + 1, st => replayTransferWebhook ev n (handleTransferWebhook ev st)

/-- `transactionSchema.methods.createRefund(reason)` (Transaction model,
lines 188-203): build a new transaction with the parties swapped, same
amount and currency, `type: refund`, pending, linked through
`originalTransaction`, and save it.  `fromUser` is a required schema path,
so saving fails when the original has no `toUser`; there is no check of
the original transaction's status. -/
def createRefund (orig : Transaction) (reason : String) (st : St) :
    Except String (Transaction × St) :=
  match orig.toUser with
  | none => Except.error ("ValidationError: fromUser is required")
  | some u =>
    let r : Transaction :=
      { id := st.nextId
        fromUser := u
        toUser := some orig.fromUser
        amount := orig.amount
        currency := orig.currency
        type := TxType.refund
        status := TxStatus.pending
        description := reason
        originalTransaction := some orig.id }
    match createTx st r with
    | Except.error e => Except.error e
    | Except.ok st1 => Except.ok (r, st1)

-- Reconciliation lemmas ---------------------------------------------------

theorem verify_noop_of_completed (gw : GatewayVerifyResp) (r : Nat) (st : St) (tx : Transaction)
    (hok : gw.ok = true) (hs : gw.paystatus = "success")
    (hfind : findTx st gw.reference = some tx) (hc : tx.status = TxStatus.completed) :
    verifyPayment gw r st
      = (Outcome.resp { success := true, message := "Payment already completed", txId := some tx.id }, st) := by
  simp [verifyPayment, hok, hs, hfind, hc]

theorem webhook_noop_of_completed (gw : GatewayVerifyResp) (ev : WebhookEvent) (st : St)
    (tx : Transaction) (hok : gw.ok = true) (hs : gw.paystatus = "success")
    (hev : ev.kind = "charge.success") (hmeta : ev.hasMetadata = true)
    (hfind : findTx st gw.reference = some tx) (hc : tx.status = TxStatus.completed) :
    handleWebhookEvent gw ev st
      = (Outcome.resp { success := true, message := "Payment processed successfully via webhook", txId := none }, st) := by
  have hv := verify_noop_of_completed gw ev.reference st tx hok hs hfind hc
  simp [handleWebhookEvent, hev, hmeta, hv]

theorem verify_snd_of_not_completed (gw : GatewayVerifyResp) (r : Nat) (st : St) (tx : Transaction)
    (hok : gw.ok = true) (hs : gw.paystatus = "success")
    (hfind : findTx st gw.reference = some tx) (hc : ¬ tx.status = TxStatus.completed) :
    (verifyPayment gw r st).2
      = (match tx.toUser with
         | some v =>
           incBalance (incBalance (updateTx st tx.id (completeTx gw r)) tx.fromUser (-tx.amount)) v tx.amount
         | none =>
           incBalance (updateTx st tx.id (completeTx gw r)) tx.fromUser (-tx.amount)) := by
  simp [verifyPayment, hok, hs, hfind, hc]

theorem verify_completes_tx (gw : GatewayVerifyResp) (r : Nat) (st : St) (tx : Transaction)
    (hok : gw.ok = true) (hs : gw.paystatus = "success")
    (hfind : findTx st gw.reference = some tx) (hc : ¬ tx.status = TxStatus.completed) :
    findTx (verifyPayment gw r st).2 gw.reference = some (completeTx gw r tx) := by
  have hsnd := verify_snd_of_not_completed gw r st tx hok hs hfind hc
  have hup : findTx (updateTx st tx.id (completeTx gw r)) gw.reference
      = some (completeTx gw r tx) := by
    rw [findTx_updateTx st tx.id gw.reference (completeTx gw r) (fun t => rfl), hfind]
    simp
  cases htu : tx.toUser with
  | none =>
    rw [hsnd, htu]
    simpa [findTx_incBalance] using hup
  | some v =>
    rw [hsnd, htu]
    simpa [findTx_incBalance] using hup

/-- C1: once a transaction's status is `completed`, a further success
verification (`verifyPayment`) and a further success webhook
(`handleWebhookEvent`) for the same reference return success as no-ops
with the state unchanged; running a success verification twice leaves the
state of the first run untouched (the sender debit and receiver credit of
the completing run are applied exactly once and never re-applied on
replay). -/
theorem c1_completion_idempotent (gw : GatewayVerifyResp) (r1 r2 : Nat) (ev : WebhookEvent)
    (st : St) (tx : Transaction)
    (hok : gw.ok = true) (hs : gw.paystatus = "success")
    (hfind : findTx st gw.reference = some tx)
    (hev : ev.kind = "charge.success") (hmeta : ev.hasMetadata = true) :
    (tx.status = TxStatus.completed →
       verifyPayment gw r1 st
         = (Outcome.resp { success := true, message := "Payment already completed", txId := some tx.id }, st) ∧
       handleWebhookEvent gw ev st
         = (Outcome.resp { success := true, message := "Payment processed successfully via webhook", txId := none }, st)) ∧
    (verifyPayment gw r2 (verifyPayment gw r1 st).2).2 = (verifyPayment gw r1 st).2 ∧
    (handleWebhookEvent gw ev (verifyPayment gw r1 st).2).2 = (verifyPayment gw r1 st).2 ∧
    (¬ tx.status = TxStatus.completed → ∀ v b c, tx.toUser = some v → ¬ tx.fromUser = v →
       findBalance st tx.fromUser = some b → findBalance st v = some c →
       findBalance (verifyPayment gw r1 st).2 tx.fromUser = some (b - tx.amount) ∧
       findBalance (verifyPayment gw r1 st).2 v = some (c + tx.amount)) := by
  have hstep : ∃ tx2, findTx (verifyPayment gw r1 st).2 gw.reference = some tx2 ∧
      tx2.status = TxStatus.completed := by
    by_cases hc : tx.status = TxStatus.completed
    · rw [verify_noop_of_completed gw r1 st tx hok hs hfind hc]
      exact ⟨tx, hfind, hc⟩
    · exact ⟨completeTx gw r1 tx, verify_completes_tx gw r1 st tx hok hs hfind hc, rfl⟩
  obtain ⟨tx2, hfind2, hc2⟩ := hstep
  refine ⟨?_, ?_, ?_, ?_⟩
  · intro hc
    exact ⟨verify_noop_of_completed gw r1 st tx hok hs hfind hc,
           webhook_noop_of_completed gw ev st tx hok hs hev hmeta hfind hc⟩
  · rw [verify_noop_of_completed gw r2 _ tx2 hok hs hfind2 hc2]
  · rw [webhook_noop_of_completed gw ev _ tx2 hok hs hev hmeta hfind2 hc2]
  · intro hc v b c htu hne hb hcv
    have hsnd := verify_snd_of_not_completed gw r1 st tx hok hs hfind hc
    rw [hsnd, htu]
    constructor
    · rw [findBalance_incBalance_ne _ v tx.fromUser tx.amount hne]
      rw [findBalance_incBalance_self, findBalance_updateTx, hb]
      simp [sub_eq_add_neg]
    · rw [findBalance_incBalance_self]
      rw [findBalance_incBalance_ne _ tx.fromUser v (-tx.amount) (fun he => hne he.symm)]
      rw [findBalance_updateTx, hcv]
      simp

def txC1 : Transaction :=
  { id := 0, fromUser := 1, toUser := some 2, amount := 500, currency := "NGN",
    paymentMethod := "bank", type := TxType.send, status := TxStatus.completed }

def stC1 : St := { txs := [txC1], balances := [(1, 100), (2, 700)], nextId := 1 }

def gwC1 : GatewayVerifyResp :=
  { ok := true, paystatus := "success", reference := 0, amount := 50000 }

def evC1 : WebhookEvent := { kind := "charge.success", reference := 0 }

theorem c1_witness :
    (verifyPayment gwC1 9 (verifyPayment gwC1 7 stC1).2).2 = (verifyPayment gwC1 7 stC1).2 :=
  (c1_completion_idempotent gwC1 7 9 evC1 stC1 txC1 rfl rfl (by decide) rfl rfl).2.1

-- C2 -----------------------------------------------------------------------

def txC2 : Transaction :=
  { id := 0, fromUser := 1, toUser := some 2, amount := 500, currency := "NGN",
    paymentMethod := "bank", type := TxType.send, status := TxStatus.pending }

def stC2 : St := { txs := [txC2], balances := [(1, 0), (2, 0)], nextId := 1 }

def gwC2 : GatewayVerifyResp :=
  { ok := true, paystatus := "success", reference := 0, amount := 50000 }

/-- C2 counterexample: the sender debit performed by `verifyPayment` on
charge completion is an unconditional increment; with sender balance 0 and
amount 500 the completion succeeds and drives the sender balance to -500,
so the debit neither keeps the post-state balance at 0 or above nor fails
closed. -/
theorem c2_counterexample :
    getBalance stC2 1 = 0 ∧
    (verifyPayment gwC2 0 stC2).1
      = Outcome.resp { success := true, message := "Payment verified successfully", txId := some 0 } ∧
    getBalance ((verifyPayment gwC2 0 stC2).2) 1 = -500 ∧
    getBalance ((verifyPayment gwC2 0 stC2).2) 1 < 0 := by
  refine ⟨by decide, by decide, by decide, by decide⟩

/-- C2 (amended): the withdrawal debit in `initiateTransfer` does fail
closed: when the sender's balance is below the requested amount the call
throws `Insufficient balance` and the state is unchanged.  (The sender
debit on charge completion in `verifyPayment`, by contrast, is applied
unconditionally and can drive the balance negative.) -/
theorem c2_withdrawal_debit_fails_closed (gwOk : Bool) (userId : Nat) (amount b : Int)
    (recipientCode reason : String) (st : St)
    (hbal : findBalance st userId = some b) (hlt : b < amount) :
    initiateTransfer gwOk userId amount recipientCode reason st
      = (Outcome.thrown ("Transfer failed: Insufficient balance"), st) := by
  simp [initiateTransfer, hbal, hlt]

def stC2w : St := { balances := [(1, 50)] }

theorem c2_witness :
    initiateTransfer true 1 1000 ("RCP") ("w") stC2w
      = (Outcome.thrown ("Transfer failed: Insufficient balance"), stC2w) :=
  c2_withdrawal_debit_fails_closed true 1 1000 50 ("RCP") ("w") stC2w (by decide) (by decide)

-- C3 -----------------------------------------------------------------------

def txC3 : Transaction :=
  { id := 0, fromUser := 1, toUser := some 2, amount := 300, currency := "NGN",
    paymentMethod := "bank", type := TxType.send, status := TxStatus.pending }

def stC3 : St := { txs := [txC3], balances := [(1, 1000), (2, 0)], nextId := 1 }

def stC3can : St := (cancelTransaction 0 ("changed my mind") stC3).2

def gwC3 : GatewayVerifyResp :=
  { ok := true, paystatus := "success", reference := 0, amount := 30000 }

/-- C3 counterexample: a pending transaction cancelled by its owner is
afterwards transitioned to `completed` by a delayed success verification,
and its balance effects are applied: `verifyPayment` only guards against
an already-`completed` status, not against `cancelled`. -/
theorem c3_counterexample :
    (findTx stC3can 0).map (fun t => t.status) = some TxStatus.cancelled ∧
    (findTx ((verifyPayment gwC3 0 stC3can).2) 0).map (fun t => t.status) = some TxStatus.completed ∧
    getBalance ((verifyPayment gwC3 0 stC3can).2) 1 = 700 ∧
    getBalance ((verifyPayment gwC3 0 stC3can).2) 2 = 300 := by
  refine ⟨by decide, by decide, by decide, by decide⟩

/-- C3 (amended): cancellation does not protect a transaction: for any
transaction whose status is `cancelled`, a later success verification or
success webhook for its reference transitions it to `completed` (and
applies its balance effects); only an already-`completed` status blocks
re-completion. -/
theorem c3_cancelled_not_protected (gw : GatewayVerifyResp) (r : Nat) (st : St) (tx : Transaction)
    (hok : gw.ok = true) (hs : gw.paystatus = "success")
    (hfind : findTx st gw.reference = some tx) (hc : tx.status = TxStatus.cancelled) :
    (verifyPayment gw r st).1
      = Outcome.resp { success := true, message := "Payment verified successfully", txId := some tx.id } ∧
    (findTx (verifyPayment gw r st).2 gw.reference).map (fun t => t.status) = some TxStatus.completed := by
  have hnc : ¬ tx.status = TxStatus.completed := by
    rw [hc]
    decide
  constructor
  · simp [verifyPayment, hok, hs, hfind, hnc]
  · rw [verify_completes_tx gw r st tx hok hs hfind hnc]
    rfl

def txC3w : Transaction :=
  { id := 4, fromUser := 1, toUser := some 2, amount := 300, currency := "NGN",
    paymentMethod := "bank", type := TxType.send, status := TxStatus.cancelled }

def stC3w : St := { txs := [txC3w], balances := [(1, 1000), (2, 0)], nextId := 5 }

def gwC3w : GatewayVerifyResp :=
  { ok := true, paystatus := "success", reference := 4, amount := 30000 }

theorem c3_witness :
    (verifyPayment gwC3w 4 stC3w).1
      = Outcome.resp { success := true, message := "Payment verified successfully", txId := some 4 } ∧
    (findTx (verifyPayment gwC3w 4 stC3w).2 4).map (fun t => t.status) = some TxStatus.completed :=
  c3_cancelled_not_protected gwC3w 4 stC3w txC3w rfl rfl (by decide) rfl

-- C4 -----------------------------------------------------------------------

def stC4 : St := { balances := [(1, 1000)] }

/-- C4: the code evaluated at the failing input of the claim.  A
withdrawal of 1000 by user 1 whose balance is 1000 never reaches the
debit: the transaction record `initiateTransfer` builds has
`type: withdrawal` and `paymentMethod: bank_transfer`, neither of which
is in the corresponding schema enum, so `Transaction.create` throws a
validation error, the call fails, no record is persisted and the balance
is untouched -- the claimed immediate debit and later compensating credit
never happen. -/
theorem c4_withdrawal_never_persists :
    validTx (mkWithdrawalTx 0 1 1000 ("withdraw")) = false ∧
    (initiateTransfer true 1 1000 ("RCP4") ("withdraw") stC4).1
      = Outcome.thrown ("Transfer failed: ValidationError") ∧
    (initiateTransfer true 1 1000 ("RCP4") ("withdraw") stC4).2 = stC4 ∧
    getBalance stC4 1 = 1000 := by
  refine ⟨by decide, by decide, by decide, by decide⟩

-- C5 -----------------------------------------------------------------------

theorem transfer_failed_step (ev : WebhookEvent) (st : St) (tx : Transaction) (b : Int)
    (hev : ev.kind = "transfer.failed")
    (hfind : findTx st ev.reference = some tx)
    (hb : findBalance st tx.fromUser = some b) :
    findTx (handleTransferWebhook ev st) ev.reference
        = some { tx with status := TxStatus.failed } ∧
    findBalance (handleTransferWebhook ev st) tx.fromUser = some (b + tx.amount) := by
  have hne : ¬ ev.kind = "transfer.success" := by
    rw [hev]
    decide
  have hrun : handleTransferWebhook ev st
      = incBalance (updateTx st tx.id (fun t => { t with status := TxStatus.failed }))
          tx.fromUser tx.amount := by
    simp [handleTransferWebhook, hfind, hne, hev]
  constructor
  · rw [hrun, findTx_incBalance,
      findTx_updateTx st tx.id ev.reference
        (fun t => { t with status := TxStatus.failed }) (fun t => rfl), hfind]
    simp
  · rw [hrun, findBalance_incBalance_self, findBalance_updateTx, hb]
    simp

theorem replay_failed_balance (ev : WebhookEvent) (hev : ev.kind = "transfer.failed") :
    ∀ (n : Nat) (st : St) (tx : Transaction) (b : Int),
      findTx st ev.reference = some tx → findBalance st tx.fromUser = some b →
      findBalance (replayTransferWebhook ev n st) tx.fromUser = some (b + (n : Int) * tx.amount) := by
  intro n
  induction n with
  | zero =>
    intro st tx b hfind hb
    simpa using hb
  | succ n ih =>
    intro st tx b hfind hb
    obtain ⟨h1, h2⟩ := transfer_failed_step ev st tx b hev hfind hb
    have h3 := ih (handleTransferWebhook ev st) { tx with status := TxStatus.failed }
      (b + tx.amount) h1 h2
    have h4 : findBalance (replayTransferWebhook ev n (handleTransferWebhook ev st)) tx.fromUser
        = some (b + tx.amount + (n : Int) * tx.amount) := by
      simpa using h3
    show findBalance (replayTransferWebhook ev n (handleTransferWebhook ev st)) tx.fromUser
        = some (b + ((n + 1 : Nat) : Int) * tx.amount)
    rw [h4]
    congr 1
    push_cast
    ring

/-- C5: `handleTransferWebhook` applies the `transfer.failed` effects with
no guard on the transaction's current status: for a transaction in ANY
status (including `completed`) it sets the status to `failed` and credits
the sender by the transaction amount, and delivering the same
`transfer.failed` event n times credits the sender n times the amount. -/
theorem c5_transfer_failed_unguarded (ev : WebhookEvent) (st : St) (tx : Transaction) (b : Int)
    (hev : ev.kind = "transfer.failed")
    (hfind : findTx st ev.reference = some tx)
    (hb : findBalance st tx.fromUser = some b) :
    ((findTx (handleTransferWebhook ev st) ev.reference).map (fun t => t.status)
        = some TxStatus.failed) ∧
    (findBalance (handleTransferWebhook ev st) tx.fromUser = some (b + tx.amount)) ∧
    (∀ n : Nat, findBalance (replayTransferWebhook ev n st) tx.fromUser
        = some (b + (n : Int) * tx.amount)) := by
  obtain ⟨h1, h2⟩ := transfer_failed_step ev st tx b hev hfind hb
  refine ⟨?_, h2, fun n => replay_failed_balance ev hev n st tx b hfind hb⟩
  rw [h1]
  rfl

def txC5 : Transaction :=
  { id := 3, fromUser := 1, toUser := some 2, amount := 250, currency := "NGN",
    paymentMethod := "bank", type := TxType.send, status := TxStatus.completed }

def stC5 : St := { txs := [txC5], balances := [(1, 100), (2, 0)], nextId := 4 }

def evC5 : WebhookEvent := { kind := "transfer.failed", reference := 3 }

theorem c5_witness :
    findBalance (replayTransferWebhook evC5 2 stC5) 1 = some (100 + (2 : Int) * 250) :=
  (c5_transfer_failed_unguarded evC5 stC5 txC5 100 rfl (by decide) (by decide)).2.2 2

-- C6 -----------------------------------------------------------------------

def stC6 : St := { balances := [(3, 500)] }

/-- C6: `withdrawal` is NOT a member of the `type` enum of the Transaction
schema (it lists send, request, receive, refund, fee only), so the record
`initiateTransfer` builds for a withdrawal fails schema validation and is
never persisted: the call throws and leaves the store unchanged. -/
theorem c6_withdrawal_not_in_type_enum :
    typeEnumOk TxType.withdrawal = false ∧
    (mkWithdrawalTx 0 3 200 ("w6")).type = TxType.withdrawal ∧
    validTx (mkWithdrawalTx 0 3 200 ("w6")) = false ∧
    (initiateTransfer true 3 200 ("RCP6") ("w6") stC6).1
      = Outcome.thrown ("Transfer failed: ValidationError") ∧
    (initiateTransfer true 3 200 ("RCP6") ("w6") stC6).2.txs = [] := by
  refine ⟨rfl, rfl, by decide, by decide, by decide⟩

-- C7 -----------------------------------------------------------------------

def stC7 : St := { balances := [(1, 50)] }

/-- C7 counterexample: a withdrawal of 1000 with balance 50 through the
withdraw controller flow is rejected with `Insufficient balance` and the
balance and transaction store are untouched, but NOT before any gateway
call: the recipient-creation call to the gateway precedes the balance
check, so the outbound gateway call counter has moved from 0 to 1. -/
theorem c7_counterexample :
    (withdraw ("RCP7") true 1 1000 ("") stC7).1
      = Outcome.thrown ("Transfer failed: Insufficient balance") ∧
    stC7.gwCalls = 0 ∧
    ¬ (withdraw ("RCP7") true 1 1000 ("") stC7).2.gwCalls = 0 ∧
    (withdraw ("RCP7") true 1 1000 ("") stC7).2.gwCalls = 1 := by
  refine ⟨by decide, rfl, by decide, by decide⟩

/-- C7 (amended): a withdrawal request whose amount exceeds the user's
balance is rejected before the transfer gateway call and before any
transaction record is created; the balance and the transaction store are
unchanged.  However the recipient-creation gateway call made by the
withdraw controller precedes the balance check, so exactly one gateway
call has been made. -/
theorem c7_insufficient_rejected_after_recipient_call (recipientCode : String) (gwOk : Bool)
    (userId : Nat) (amount b : Int) (reason : String) (st : St)
    (hbal : findBalance st userId = some b) (hlt : b < amount) :
    withdraw recipientCode gwOk userId amount reason st
      = (Outcome.thrown ("Transfer failed: Insufficient balance"),
         { st with gwCalls := st.gwCalls + 1 }) := by
  have hb2 : findBalance { st with gwCalls := st.gwCalls + 1 } userId = some b := hbal
  simp [withdraw, initiateTransfer, hb2, hlt]

def stC7w : St := { balances := [(2, 50)] }

theorem c7_witness :
    withdraw ("R") false 2 1000 ("r") stC7w
      = (Outcome.thrown ("Transfer failed: Insufficient balance"),
         { stC7w with gwCalls := stC7w.gwCalls + 1 }) :=
  c7_insufficient_rejected_after_recipient_call ("R") false 2 1000 50 ("r") stC7w
    (by decide) (by decide)

-- C8 -----------------------------------------------------------------------

def origC8 : Transaction :=
  { id := 5, fromUser := 1, toUser := some 2, amount := 400, currency := "NGN",
    paymentMethod := "bank", type := TxType.send, status := TxStatus.pending }

def stC8 : St := { txs := [origC8], balances := [(1, 0), (2, 0)], nextId := 6 }

/-- C8 counterexample: `createRefund` succeeds on an original transaction
whose status is `pending`, not `completed` -- the method has no guard at
all on the original transaction's status. -/
theorem c8_counterexample :
    origC8.status = TxStatus.pending ∧
    ¬ origC8.status = TxStatus.completed ∧
    (createRefund origC8 ("dup") stC8).toOption.isSome = true := by
  refine ⟨rfl, by decide, by decide⟩

/-- C8 (amended): for an original transaction of ANY status (no
completed-only guard exists), `createRefund` creates a new transaction
with `fromUser` and `toUser` swapped relative to the original, the same
amount and currency, type `refund`, status `pending`, and
`originalTransaction` set to the original's id, and appends it to the
store. -/
theorem c8_refund_shape_any_status (orig : Transaction) (u : Nat) (reason : String) (st : St)
    (hto : orig.toUser = some u) (hamt : 0 ≤ orig.amount)
    (hcur : currencyEnumOk orig.currency = true) :
    ∃ r st2, createRefund orig reason st = Except.ok (r, st2) ∧
      r.fromUser = u ∧ r.toUser = some orig.fromUser ∧ r.amount = orig.amount ∧
      r.currency = orig.currency ∧ r.type = TxType.refund ∧ r.status = TxStatus.pending ∧
      r.originalTransaction = some orig.id ∧ st2.txs = st.txs ++ [r] := by
  have hrun : createRefund orig reason st
      = Except.ok ({ id := st.nextId, fromUser := u, toUser := some orig.fromUser,
                     amount := orig.amount, currency := orig.currency,
                     type := TxType.refund, status := TxStatus.pending,
                     description := reason, originalTransaction := some orig.id },
                   { st with
                       txs := st.txs ++
                         [{ id := st.nextId, fromUser := u, toUser := some orig.fromUser,
                            amount := orig.amount, currency := orig.currency,
                            type := TxType.refund, status := TxStatus.pending,
                            description := reason, originalTransaction := some orig.id }],
                       nextId := st.nextId + 1 }) := by
    have hpm : payMethodEnumOk ("crypto") = true := by decide
    simp [createRefund, createTx, hto, validTx, typeEnumOk, hpm, hcur, hamt]
  exact ⟨_, _, hrun, rfl, rfl, rfl, rfl, rfl, rfl, rfl, rfl⟩

theorem c8_witness :
    ∃ r st2, createRefund origC8 ("requested by user") stC8 = Except.ok (r, st2) ∧
      r.fromUser = 2 ∧ r.toUser = some origC8.fromUser ∧ r.amount = origC8.amount ∧
      r.currency = origC8.currency ∧ r.type = TxType.refund ∧ r.status = TxStatus.pending ∧
      r.originalTransaction = some origC8.id ∧ st2.txs = stC8.txs ++ [r] :=
  c8_refund_shape_any_status origC8 2 ("requested by user") stC8 rfl (by decide) (by decide)

-- C9 -----------------------------------------------------------------------

mutual
inductive Json where
  | str (s : String)
  | num (n : Int)
  | obj (fields : JFields)

inductive JFields where
  | nil
  | cons (key : String) (value : Json) (rest : JFields)
end

def jsonQuote (s : String) : String := "\"" ++ s ++ "\""

mutual
/-- `JSON.stringify`: the canonical, whitespace-free serialization that
`verifyWebhookSignature` feeds to the HMAC (string escaping is elided; no
claim depends on escapes). -/
def Json.stringify : Json → String
  | Json.str s => jsonQuote s
  | Json.num n => toString n
  | Json.obj fs => "\x7b" ++ JFields.stringify fs ++ "\x7d"

def JFields.stringify : JFields → String
  | JFields.nil => ""
  | JFields.cons k v rest =>
      jsonQuote k ++ ":" ++ Json.stringify v ++
        (match rest with
         | JFields.nil => ""
         | JFields.cons _ _ _ => ",") ++ JFields.stringify rest
end

/-- `PaymentService.verifyWebhookSignature(body, signature)`
(payment.service.js 185-192): HMAC-SHA512 under the secret key of
`JSON.stringify(body)`, compared to the header signature.  `body` is the
PARSED request body (`express.json` has already consumed the raw bytes);
the keyed HMAC itself is abstracted as the parameter `hmac`. -/
def verifyWebhookSignature (hmac : String → String) (body : Json) (signature : String) : Bool :=
  hmac (Json.stringify body) == signature

/-- A webhook HTTP request as the controller sees it: the parsed JSON
body produced by `express.json`, the event fields the handler reads from
that body, and the `x-paystack-signature` header. -/
structure WebhookReq where
  body : Json
  event : WebhookEvent
  signature : String

/-- `PaymentController.handlePaystackWebhook` (payment.controller.js
94-126): verify the signature first; an invalid signature is answered 400
with no event processing; otherwise the event is handled and the answer
is always 200. -/
def handlePaystackWebhook (hmac : String → String) (gw : GatewayVerifyResp)
    (req : WebhookReq) (st : St) : Nat × St :=
  if verifyWebhookSignature hmac req.body req.signature = false then ((400 : Nat), st)
  else ((200 : Nat), (handleWebhookEvent gw req.event st).2)

/-- The raw byte string of a webhook body as delivered by the provider
(note the whitespace), and the value `express.json` parses it to. -/
def rawBodyC9 : String := "\x7b \"event\": \"charge.success\" \x7d"

def parsedBodyC9 : Json :=
  Json.obj (JFields.cons ("event") (Json.str ("charge.success")) JFields.nil)

/-- C9 counterexample: the string `verifyWebhookSignature` hashes is the
re-serialization of the parsed body, not the raw bytes received: for the
raw body `\x7b "event": "charge.success" \x7d` the hashed string is the
whitespace-free `JSON.stringify` form, which differs from the raw byte
string, so a provider signature computed over the exact received bytes
does not match what the code computes. -/
theorem c9_counterexample :
    Json.stringify parsedBodyC9 = "\x7b\"event\":\"charge.success\"\x7d" ∧
    ¬ Json.stringify parsedBodyC9 = rawBodyC9 := by
  refine ⟨by decide, by decide⟩

/-- C9 (amended): `verifyWebhookSignature` hashes
`JSON.stringify(req.body)`, a re-serialization of the parsed body that
can differ from the raw received bytes; an inbound webhook whose
signature does not match this re-serialized form is rejected with 400
before any event handling, leaving the state unchanged. -/
theorem c9_invalid_signature_rejected (hmac : String → String) (gw : GatewayVerifyResp)
    (req : WebhookReq) (st : St)
    (hsig : verifyWebhookSignature hmac req.body req.signature = false) :
    handlePaystackWebhook hmac gw req st = (400, st) := by
  simp [handlePaystackWebhook, hsig]

def reqC9 : WebhookReq :=
  { body := parsedBodyC9
    event := { kind := "charge.success", reference := 0 }
    signature := "deadbeef" }

def gwC9 : GatewayVerifyResp :=
  { ok := true, paystatus := "success", reference := 0, amount := 1000 }

def stC9 : St := { balances := [(1, 10)] }

theorem c9_witness :
    handlePaystackWebhook (fun _ => "aa") gwC9 reqC9 stC9 = (400, stC9) :=
  c9_invalid_signature_rejected (fun _ => "aa") gwC9 reqC9 stC9 (by decide)

-- C10 ----------------------------------------------------------------------

/-- C10: `initializePayment` rejects any amount below 100 (negative
amounts included) with the minimum-amount validation error, before
creating a transaction record and before any gateway call: the state is
returned unchanged. -/
theorem c10_minimum_amount_rejected (gwOk : Bool) (userId recipientId : Nat) (amount : Int)
    (currency description : String) (st : St)
    (hu : (findBalance st userId).isSome = true)
    (hr : (findBalance st recipientId).isSome = true)
    (hamt : amount < 100) :
    initializePayment gwOk userId recipientId amount currency description st
      = (Outcome.thrown ("Payment initialization failed: Minimum amount is ₦100"), st) := by
  simp [initializePayment, hu, hr, hamt]

def stC10 : St := { balances := [(1, 0), (2, 0)] }

theorem c10_witness :
    initializePayment true 1 2 50 ("NGN") ("gift") stC10
      = (Outcome.thrown ("Payment initialization failed: Minimum amount is ₦100"), stC10) :=
  c10_minimum_amount_rejected true 1 2 50 ("NGN") ("gift") stC10 (by decide) (by decide) (by decide)
